import Mathlib

/-!
Verification development for the trimesh-glooey scene widgets
(`scene_widget.py` and `mesh_widget.py`).

The Python sources are shallowly embedded:
* 4x4 homogeneous transforms become `Aff` (a 3x3 real linear part plus a
  translation vector);
* Python dicts keyed by geometry names become association lists with
  last-write-wins insertion (`dictInsert` / `dictLookup`);
* the pyglet graphics batch becomes a `Batch` allocation counter, so the
  number of `add_indexed` calls (GPU vertex-list builds) is observable;
* Python exceptions become an `Option PyErr` component of each method's
  result, carrying the partially mutated state exactly as Python would
  leave it when the exception propagates out of the method.

External collaborators (trimesh, pyrender, glooey, pyglet) are modelled at
their interfaces, as the spec prescribes; each such definition carries a
doc comment saying what it stands for.
-/

namespace TrimeshGlooey

/-! ## Affine transforms (4x4 homogeneous matrices over the reals) -/

/-- A 4x4 homogeneous transform, stored as its 3x3 linear block and its
translation column (the last row being `0 0 0 1`). -/
structure Aff where
  lin : Matrix (Fin 3) (Fin 3) ℝ
  trans : Fin 3 → ℝ

/-- The identity transform (`np.eye(4)`). -/
def Aff.id4 : Aff := ⟨1, 0⟩

/-- Composition of homogeneous transforms (matrix product of the 4x4s). -/
def Aff.comp (a b : Aff) : Aff :=
  ⟨a.lin * b.lin, a.lin.mulVec b.trans + a.trans⟩

/-- Pure translation by `v`. -/
def Aff.transl (v : Fin 3 → ℝ) : Aff := ⟨1, v⟩

/-- Embeds a pure rotation (3x3 linear map) as a homogeneous transform. -/
def Aff.ofLin (m : Matrix (Fin 3) (Fin 3) ℝ) : Aff := ⟨m, 0⟩

/-- `np.linalg.inv` on a homogeneous transform. -/
noncomputable def Aff.inv (a : Aff) : Aff :=
  ⟨a.lin⁻¹, -(a.lin⁻¹.mulVec a.trans)⟩

@[simp] theorem Aff.comp_id4_left (a : Aff) : Aff.comp Aff.id4 a = a := by
  cases a with
  | mk lin trans => simp [Aff.comp, Aff.id4, Matrix.one_mulVec]

@[simp] theorem Aff.comp_id4_right (a : Aff) : Aff.comp a Aff.id4 = a := by
  cases a with
  | mk lin trans => simp [Aff.comp, Aff.id4, Matrix.mulVec_zero]

@[simp] theorem Aff.transl_comp_transl (v w : Fin 3 → ℝ) :
    Aff.comp (Aff.transl v) (Aff.transl w) = Aff.transl (v + w) := by
  simp [Aff.comp, Aff.transl, Matrix.one_mulVec, add_comm]

@[simp] theorem Aff.transl_zero : Aff.transl 0 = Aff.id4 := rfl

@[simp] theorem Aff.ofLin_one : Aff.ofLin 1 = Aff.id4 := rfl

/-- Casts a rational vector to a real vector. -/
def castVec (v : Fin 3 → ℚ) : Fin 3 → ℝ := fun i => ((v i : ℚ) : ℝ)

@[simp] theorem castVec_zero : castVec 0 = 0 := by
  funext i; simp [castVec]

/-! ## Python dict operations (keyed by geometry name) -/

/-- `d[k] = v` on a Python dict: replaces the value of an existing key in
place, otherwise appends the new binding at the end. -/
def dictInsert (k : String) (v : α) : List (String × α) → List (String × α)
  | [] => [(k, v)]
  | (k', v') :: rest =>
    if k = k' then (k, v) :: rest else (k', v') :: dictInsert k v rest

/-- `d.get(k)` on a Python dict (`None` when the key is absent). -/
def dictLookup (k : String) : List (String × α) → Option α
  | [] => none
  | (k', v') :: rest => if k = k' then some v' else dictLookup k rest

@[simp] theorem dictLookup_dictInsert_self (k : String) (v : α)
    (d : List (String × α)) : dictLookup k (dictInsert k v d) = some v := by
  induction d with
  | nil => simp [dictInsert, dictLookup]
  | cons hd tl ih =>
    by_cases h : k = hd.1
    · simp [dictInsert, dictLookup, h]
    · simpa [dictInsert, dictLookup, h] using ih

theorem dictLookup_dictInsert_ne (k k' : String) (v : α)
    (d : List (String × α)) (h : k ≠ k') :
    dictLookup k (dictInsert k' v d) = dictLookup k d := by
  induction d with
  | nil => simp [dictInsert, dictLookup, h]
  | cons hd tl ih =>
    by_cases h2 : k' = hd.1
    · subst h2
      simp [dictInsert, dictLookup, h]
    · by_cases h3 : k = hd.1 <;> simp [dictInsert, dictLookup, h2, h3, ih]

theorem dictInsert_ne_nil (k : String) (v : α) (d : List (String × α)) :
    dictInsert k v d ≠ [] := by
  cases d with
  | nil => simp [dictInsert]
  | cons hd tl =>
    by_cases h : k = hd.1 <;> simp [dictInsert, h]

theorem mem_keys_dictInsert (x k : String) (v : α) (d : List (String × α))
    (hx : x ∈ (dictInsert k v d).map Prod.fst) :
    x = k ∨ x ∈ d.map Prod.fst := by
  induction d with
  | nil =>
    simp [dictInsert] at hx
    exact Or.inl hx
  | cons hd tl ih =>
    by_cases hk : k = hd.1
    · subst hk
      simp [dictInsert] at hx
      rcases hx with hx | hx
      · exact Or.inl hx
      · exact Or.inr (by simp [hx])
    · simp [dictInsert, hk] at hx
      rcases hx with hx | hx
      · exact Or.inr (by simp [hx])
      · rcases ih (by simpa using hx) with h1 | h1
        · exact Or.inl h1
        · exact Or.inr (by simp [h1])

theorem dictInsert_keys_nodup (k : String) (v : α) (d : List (String × α))
    (h : (d.map Prod.fst).Nodup) :
    ((dictInsert k v d).map Prod.fst).Nodup := by
  induction d with
  | nil => simp [dictInsert]
  | cons hd tl ih =>
    simp only [List.map_cons, List.nodup_cons] at h
    by_cases hk : k = hd.1
    · subst hk
      simpa [dictInsert, List.nodup_cons] using h
    · simp only [dictInsert, if_neg hk, List.map_cons, List.nodup_cons]
      refine ⟨fun hmem2 => ?_, ih h.2⟩
      rcases mem_keys_dictInsert hd.1 k v tl hmem2 with h1 | h1
      · exact hk h1.symm
      · exact h.1 h1

/-! ## External collaborators, modelled at their interfaces -/

/-- The widget's pixel rectangle, as assigned by the glooey layout
(`self.rect`: `left`, `bottom`, `width`, `height`). -/
structure Rect where
  left : ℚ
  bottom : ℚ
  width : ℚ
  height : ℚ

/-- A GPU texture handle as returned by
`trimesh.rendering.material_to_texture` (pyglet texture with a target and
an id). -/
structure Texture where
  target : ℕ
  texId : ℕ
deriving DecidableEq

/-- A trimesh material, modelled at the interface the widget code uses:
`material_to_texture` yields its texture when the material carries an
image and `None` otherwise. -/
structure Material where
  texture : Option Texture
deriving DecidableEq

/-- `trimesh.rendering.material_to_texture(material)`: returns a pyglet
texture for the material's image, or `None` when the material has no
image to convert. -/
def material_to_texture (m : Material) : Option Texture := m.texture

/-- A geometry object held by the scene, modelled at the interface
`SceneWidget.do_draw` reads: whether it is a `trimesh.Trimesh` (checked by
the `assert`), and its `visual.material` when the `hasattr` chain finds
one. -/
structure Geometry where
  isTrimesh : Bool
  visualMaterial : Option Material
deriving DecidableEq

/-- The scene camera, as read by the widget: `camera.fov[1]` and
`camera.transform`. -/
structure Camera where
  fov1 : ℚ
  transform : Aff

/-- The trimesh scene, modelled at the interface the widget reads:
`graph.nodes_geometry` enumerates geometry-node names, `graph[node]`
yields the node's `(transform, geometry_name)` pair, `geometry[name]`
yields the geometry object, and `scale`/`centroid` are the scene's
bounding data. -/
structure Scene where
  camera : Camera
  nodesGeometry : List String
  graphLookup : String → Aff × String
  geometry : String → Geometry
  scale : ℚ
  centroid : Fin 3 → ℚ

/-- A Python exception escaping one of the widget methods. -/
inductive PyErr
  | nameError
  | typeError
  | assertionError
deriving DecidableEq

/-- The pyglet graphics batch, reduced to what the claims observe: a
counter of GPU vertex-list allocations. `add_indexed` hands out the next
vertex-list id, so `nextId` counts how many vertex lists were ever built
into this batch. -/
structure Batch where
  nextId : ℕ
deriving DecidableEq

/-- `batch.add_indexed(*args)`: allocates a fresh GPU vertex list and
returns its handle. -/
def Batch.add_indexed (b : Batch) : ℕ × Batch :=
  (b.nextId, ⟨b.nextId + 1⟩)

/-! ## The trackball camera controller

Modelled from the spec: `pyrender.trackball.Trackball`, which the widget
imports, is not under `src/`.  Following spec section 4.1, `down`
(`beginGesture`) records the starting pointer position and an orientation
snapshot; `drag` (`dragTo`) maps the start and current pointer positions
onto a unit hemisphere and composes the rotation taking the start vector
to the current vector (axis = cross product, angle = arc length) onto the
snapshot, about the fixed pivot; pan/zoom translate by the total pointer
delta scaled by the viewport size and the scene extent; and per the spec's
degenerate-math policy a zero-length arc falls back to the identity
rotation.  The interaction modes mirror `Trackball.STATE_*`. -/

/-- The trackball interaction mode (`Trackball.STATE_ROTATE` etc.). -/
inductive TrackballState
  | rotate
  | pan
  | roll
  | zoom
deriving DecidableEq

/-- Maps a viewport pixel position onto the unit hemisphere over the
viewport (spec 4.1: the virtual-sphere mapping used for arcball
rotation). -/
noncomputable def sphereMap (size : ℚ × ℚ) (p : ℚ × ℚ) : Fin 3 → ℝ :=
  let x : ℝ := (2 * p.1 - size.1 : ℚ) / (size.1 : ℚ)
  let y : ℝ := (2 * p.2 - size.2 : ℚ) / (size.2 : ℚ)
  let z : ℝ := Real.sqrt (max 0 (1 - x ^ 2 - y ^ 2))
  let n : ℝ := Real.sqrt (x ^ 2 + y ^ 2 + z ^ 2)
  fun i => (1 / n) * ![x, y, z] i

/-- The cross product of two 3-vectors, the arcball rotation axis. -/
def cross3 (u v : Fin 3 → ℝ) : Fin 3 → ℝ :=
  ![u 1 * v 2 - u 2 * v 1, u 2 * v 0 - u 0 * v 2, u 0 * v 1 - u 1 * v 0]

/-- The skew-symmetric matrix of a 3-vector. -/
def skewMat (a : Fin 3 → ℝ) : Matrix (Fin 3) (Fin 3) ℝ :=
  Matrix.of ![![0, -(a 2), a 1], ![a 2, 0, -(a 0)], ![-(a 1), a 0, 0]]

/-- Rotation about an axis by an angle (Rodrigues' formula). -/
noncomputable def axisAngle (a : Fin 3 → ℝ) (θ : ℝ) : Matrix (Fin 3) (Fin 3) ℝ :=
  Real.cos θ • 1 + Real.sin θ • skewMat a + (1 - Real.cos θ) • Matrix.vecMulVec a a

/-- The angle between two vectors (the arc length between unit vectors). -/
noncomputable def angleBetween (u v : Fin 3 → ℝ) : ℝ :=
  Real.arccos (∑ i, u i * v i)

/-- The incremental arcball rotation from the gesture-start pointer
position to the current one: identity when the arc is zero-length (the
spec's degenerate-math fallback), otherwise the rotation taking the start
sphere vector to the current one. -/
noncomputable def rotIncrement (size start p : ℚ × ℚ) : Matrix (Fin 3) (Fin 3) ℝ :=
  if p = start then 1
  else axisAngle (cross3 (sphereMap size start) (sphereMap size p))
    (angleBetween (sphereMap size start) (sphereMap size p))

/-- A rotation applied about the fixed pivot: conjugation of the linear
rotation by the translation to the pivot. -/
def rotateAboutPivot (pivot : Fin 3 → ℚ) (r : Matrix (Fin 3) (Fin 3) ℝ) : Aff :=
  Aff.comp (Aff.transl (castVec pivot))
    (Aff.comp (Aff.ofLin r) (Aff.transl (-(castVec pivot))))

/-- The roll increment: rotation about the view axis by the angle swept by
the pointer around the viewport center, with the same zero-arc identity
fallback. -/
noncomputable def rollIncrement (size start p : ℚ × ℚ) : Matrix (Fin 3) (Fin 3) ℝ :=
  if p = start then 1
  else axisAngle ![0, 0, 1]
    (Real.arctan ((2 * p.2 - size.2 : ℚ) / (size.2 : ℚ)) -
      Real.arctan ((2 * start.2 - size.2 : ℚ) / (size.2 : ℚ)))

/-- The pivot camera controller state (spec 3: `NavigationState`). -/
structure Trackball where
  size : ℚ × ℚ
  scale : ℚ
  pivot : Fin 3 → ℚ
  state : TrackballState
  startPoint : ℚ × ℚ
  snapshot : Aff
  current : Aff

/-- `trackball.set_state(state)`. -/
def Trackball.setMode (t : Trackball) (m : TrackballState) : Trackball :=
  { t with state := m }

/-- `trackball.down(point)` / spec `beginGesture`: records the starting
pointer position and the orientation snapshot; the current pose is
untouched. -/
def Trackball.down (t : Trackball) (p : ℚ × ℚ) : Trackball :=
  { t with startPoint := p, snapshot := t.current }

/-- The screen-space pan translation for the current total pointer delta,
scaled by the inverse viewport dimensions and the scene extent
(spec 4.1 `pan`). -/
def panVecQ (t : Trackball) (p : ℚ × ℚ) : Fin 3 → ℚ :=
  ![t.scale * (p.1 - t.startPoint.1) / t.size.1,
    t.scale * (p.2 - t.startPoint.2) / t.size.2, 0]

/-- The zoom translation along the view axis for the current total
vertical pointer delta, scaled by the scene extent (spec 4.1 `zoom`). -/
def zoomVecQ (t : Trackball) (p : ℚ × ℚ) : Fin 3 → ℚ :=
  ![0, 0, t.scale * (p.2 - t.startPoint.2) / t.size.2]

/-- The incremental transform a drag to `p` composes onto the snapshot,
by interaction mode. -/
noncomputable def Trackball.dragIncrement (t : Trackball) (p : ℚ × ℚ) : Aff :=
  match t.state with
  | .rotate => rotateAboutPivot t.pivot (rotIncrement t.size t.startPoint p)
  | .roll => rotateAboutPivot t.pivot (rollIncrement t.size t.startPoint p)
  | .pan => Aff.transl (castVec (panVecQ t p))
  | .zoom => Aff.transl (castVec (zoomVecQ t p))

/-- `trackball.drag(point)` / spec `dragTo`: composes the incremental
transform for the total delta from the gesture start onto the orientation
snapshot taken at `down`. -/
noncomputable def Trackball.drag (t : Trackball) (p : ℚ × ℚ) : Trackball :=
  { t with current := Aff.comp (t.dragIncrement p) t.snapshot }

/-- `trackball.scroll(dy)` / spec `zoom(scrollDelta)`: accumulates a view
axis translation scaled by a fixed fraction of the scene extent per
scroll unit, onto both the pose and the gesture snapshot. -/
def Trackball.scroll (t : Trackball) (dy : ℚ) : Trackball :=
  let z := Aff.transl (castVec ![0, 0, t.scale * dy / 10])
  { t with current := Aff.comp z t.current, snapshot := Aff.comp z t.snapshot }

/-! ## SceneWidget (`scene_widget.py`) -/

/-- The widget-side `SceneGroup` record (`scene_widget.py` lines 11-34):
the rendering parameters the group holds.  `savedMode` and
`savedViewport` model the `self._mode` / `self._viewport` instance
attributes that `set_state` assigns and `unset_state` reads back. -/
structure SceneGroup where
  rect : Rect
  camera_fovy : ℚ
  camera_transform : Aff
  view_transform : Aff
  savedMode : Option ℕ := none
  savedViewport : Option (ℤ × ℤ × ℤ × ℤ) := none

/-- The widget-side `MeshGroup` record (`scene_widget.py` lines 136-143):
a per-object transform, an optional texture, and its parent scene
group. -/
structure MeshGroup where
  transform : Aff
  texture : Option Texture
  parent : SceneGroup

/-- The `SceneWidget` state: the fields assigned in `__init__` plus the
`rect`/`group`/`batch` context glooey provides once the widget is
attached (`attached` stands for that context being present and the
widget visible, which is what glooey's `Widget._draw` checks before
calling `do_draw`). -/
structure SceneWidget where
  scene : Scene
  rect : Rect
  attached : Bool
  scene_group : Option SceneGroup
  vertex_list : List (String × ℕ)
  textures : List (String × Option Texture)
  trackball : Option Trackball
  batch : Batch

/-- `SceneWidget.__init__(scene)`: stores the scene and empties the
caches; the private trackball is `None` until first accessed. -/
def SceneWidget.init (scene : Scene) (rect : Rect) (attached : Bool) : SceneWidget :=
  { scene := scene
    rect := rect
    attached := attached
    scene_group := none
    vertex_list := []
    textures := []
    trackball := none
    batch := ⟨0⟩ }

/-- The `SceneWidget._trackball` property (`scene_widget.py` lines
170-179): creates the controller on first access — `Trackball(np.eye(4),
(rect.width, rect.height), scene.scale, scene.centroid)` — and returns
the stored instance ever after. -/
def SceneWidget.getTrackball (w : SceneWidget) : Trackball × SceneWidget :=
  match w.trackball with
  | some t => (t, w)
  | none =>
    let t : Trackball :=
      { size := (w.rect.width, w.rect.height)
        scale := w.scene.scale
        pivot := w.scene.centroid
        state := .rotate
        startPoint := (0, 0)
        snapshot := Aff.id4
        current := Aff.id4 }
    (t, { w with trackball := some t })

/-- The body of the `for node_name in node_names` loop of
`SceneWidget.do_draw` (`scene_widget.py` lines 222-242), iterated over
the remaining node names.  Each node looks up its `(transform,
geometry_name)`, asserts the geometry is a `trimesh.Trimesh` (an
`AssertionError` propagates out, keeping the mutations made so far),
converts its material to a texture when it has one, and builds one
indexed vertex list into the batch, cached under `geometry_name`. -/
def processNodes (sg : SceneGroup) : List String → SceneWidget → SceneWidget × Option PyErr
  | [], w => (w, none)
  | node_name :: rest, w =>
    let transform := (w.scene.graphLookup node_name).1
    let geometry_name := (w.scene.graphLookup node_name).2
    let geometry := w.scene.geometry geometry_name
    if geometry.isTrimesh = false then (w, some .assertionError)
    else
      let w :=
        match geometry.visualMaterial with
        | some m => { w with textures := dictInsert geometry_name (material_to_texture m) w.textures }
        | none => w
      let mesh_group : MeshGroup :=
        { transform := transform
          texture := (dictLookup geometry_name w.textures).join
          parent := sg }
      let vid := w.batch.add_indexed.1
      let w := { w with
        batch := w.batch.add_indexed.2
        vertex_list := dictInsert geometry_name vid w.vertex_list }
      processNodes mesh_group.parent rest w

/-- `SceneWidget.do_draw` (`scene_widget.py` lines 208-242): a no-op when
the vertex-list cache is already populated; otherwise builds a fresh
`SceneGroup` from the rect, camera and trackball pose and walks the
scene's geometry nodes. -/
noncomputable def SceneWidget.do_draw (w : SceneWidget) : SceneWidget × Option PyErr :=
  if w.vertex_list = [] then
    let tb := w.getTrackball.1
    let w := w.getTrackball.2
    let sg : SceneGroup :=
      { rect := w.rect
        camera_fovy := w.scene.camera.fov1
        camera_transform := w.scene.camera.transform.inv
        view_transform := tb.current }
    let w := { w with scene_group := some sg }
    processNodes sg w.scene.nodesGeometry w
  else (w, none)

/-- `SceneWidget.do_regroup` (`scene_widget.py` lines 184-206): returns
immediately when nothing is cached; otherwise it rebuilds the scene
group and enters the loop over the cached vertex lists, whose first
statement `MeshGroup(transform=transform, ...)` reads the name
`transform`, which is bound nowhere in the function or module — so the
first iteration raises `NameError` before any `batch.migrate` call
runs. -/
noncomputable def SceneWidget.do_regroup (w : SceneWidget) : SceneWidget × Option PyErr :=
  if w.vertex_list = [] then (w, none)
  else
    let tb := w.getTrackball.1
    let w := w.getTrackball.2
    let sg : SceneGroup :=
      { rect := w.rect
        camera_fovy := w.scene.camera.fov1
        camera_transform := w.scene.camera.transform.inv
        view_transform := tb.current }
    let w := { w with scene_group := some sg }
    (w, some .nameError)

/-- `SceneWidget.do_undraw` (`scene_widget.py` lines 244-250): deletes
every cached vertex list and empties both caches. -/
def SceneWidget.do_undraw (w : SceneWidget) : SceneWidget :=
  if w.vertex_list = [] then w
  else { w with vertex_list := [], textures := [] }

/-- Modelled from the spec: `glooey.Widget._draw`, which the pointer
handlers call and which is not under `src/`.  Spec section 6 specifies
`draw()` as "performs sync-if-needed then issues the Render State Stack
traversal", and glooey's `_draw` invokes `do_draw` exactly when the
widget has its rect/group/batch context and is visible (`attached`
here). -/
noncomputable def SceneWidget.widgetDraw (w : SceneWidget) : SceneWidget × Option PyErr :=
  if w.attached then w.do_draw else (w, none)

/-- `if self.scene_group: self.scene_group.view_transform =
self._trackball.pose.copy()` — the tail shared by all three pointer
handlers. -/
def SceneWidget.updateViewTransform (w : SceneWidget) (t : Trackball) : SceneWidget :=
  match w.scene_group with
  | some sg => { w with scene_group := some { sg with view_transform := t.current } }
  | none => w

/-- `pyglet.window.mouse.LEFT`. -/
def mouseLEFT : ℕ := 1
/-- `pyglet.window.mouse.MIDDLE`. -/
def mouseMIDDLE : ℕ := 2
/-- `pyglet.window.mouse.RIGHT`. -/
def mouseRIGHT : ℕ := 4
/-- `pyglet.window.key.MOD_SHIFT`. -/
def modSHIFT : ℕ := 1
/-- `pyglet.window.key.MOD_CTRL`. -/
def modCTRL : ℕ := 2

/-- The mode-selection chain at the top of `SceneWidget.on_mouse_press`
(`scene_widget.py` lines 253-266). -/
def selectMode (t : Trackball) (buttons modifiers : ℕ) : Trackball :=
  let t := t.setMode .rotate
  if buttons = mouseLEFT then
    let ctrl := modifiers.land modCTRL ≠ 0
    let shift := modifiers.land modSHIFT ≠ 0
    if ctrl ∧ shift then t.setMode .zoom
    else if ctrl then t.setMode .roll
    else if shift then t.setMode .pan
    else t
  else if buttons = mouseMIDDLE then t.setMode .pan
  else if buttons = mouseRIGHT then t.setMode .zoom
  else t

/-- `SceneWidget.on_mouse_press` (`scene_widget.py` lines 252-271). -/
noncomputable def SceneWidget.on_mouse_press (w : SceneWidget) (x y : ℚ)
    (buttons modifiers : ℕ) : SceneWidget × Option PyErr :=
  let t := w.getTrackball.1
  let w := w.getTrackball.2
  let t := selectMode t buttons modifiers
  let t := t.down (x, y)
  let w := { w with trackball := some t }
  let w := w.updateViewTransform t
  w.widgetDraw

/-- The edge-crossing test of `SceneWidget.on_mouse_drag`
(`scene_widget.py` lines 275-280): the previous pointer position
`(x - dx, y - dy)` lies outside the widget's closed rectangle. -/
def prevOutside (r : Rect) (xPrev yPrev : ℚ) : Prop :=
  ¬(r.left ≤ xPrev ∧ xPrev ≤ r.left + r.width) ∨
    ¬(r.bottom ≤ yPrev ∧ yPrev ≤ r.bottom + r.height)

instance (r : Rect) (xPrev yPrev : ℚ) : Decidable (prevOutside r xPrev yPrev) := by
  unfold prevOutside
  infer_instance

/-- `SceneWidget.on_mouse_drag` (`scene_widget.py` lines 273-286): when
the previous pointer position lies outside the widget rectangle the
gesture is re-anchored with `trackball.down` at the current position,
then the drag is applied. -/
noncomputable def SceneWidget.on_mouse_drag (w : SceneWidget) (x y dx dy : ℚ)
    (_buttons _modifiers : ℕ) : SceneWidget × Option PyErr :=
  let t := w.getTrackball.1
  let w := w.getTrackball.2
  let t := if prevOutside w.rect (x - dx) (y - dy) then t.down (x, y) else t
  let t := t.drag (x, y)
  let w := { w with trackball := some t }
  let w := w.updateViewTransform t
  w.widgetDraw

/-- `SceneWidget.on_mouse_scroll` (`scene_widget.py` lines 288-292). -/
noncomputable def SceneWidget.on_mouse_scroll (w : SceneWidget) (_x _y _dx dy : ℚ) :
    SceneWidget × Option PyErr :=
  let t := w.getTrackball.1
  let w := w.getTrackball.2
  let t := t.scroll dy
  let w := { w with trackball := some t }
  let w := w.updateViewTransform t
  w.widgetDraw

/-! ## MeshWidget (`mesh_widget.py`) -/

/-- The widget-side `SceneGroup` of `mesh_widget.py` (lines 8-12): it only
holds the rect (its camera parameters are fixed constants). -/
structure MSceneGroup where
  rect : Rect
  savedMode : Option ℕ := none
  savedViewport : Option (ℤ × ℤ × ℤ × ℤ) := none

/-- The widget-side `MeshGroup` of `mesh_widget.py` (lines 109-115): a
transform and its parent scene group. -/
structure MMeshGroup where
  transform : Aff
  parent : MSceneGroup

/-- The `MeshWidget` state (`mesh_widget.py` lines 129-139) plus the
glooey attachment context. -/
structure MeshWidget where
  transform : Aff
  rect : Rect
  attached : Bool
  vertex_list : Option ℕ
  mesh_group : Option MMeshGroup
  batch : Batch

/-- `MeshWidget.do_draw` (`mesh_widget.py` lines 157-168): builds the
group chain and one indexed vertex list only when `vertex_list` is still
`None`. -/
def MeshWidget.do_draw (w : MeshWidget) : MeshWidget :=
  match w.vertex_list with
  | some _ => w
  | none =>
    let mesh_group : MMeshGroup :=
      { transform := w.transform, parent := { rect := w.rect } }
    let vid := w.batch.add_indexed.1
    { w with
      mesh_group := some mesh_group
      batch := w.batch.add_indexed.2
      vertex_list := some vid }

/-- `MeshWidget.do_regroup` (`mesh_widget.py` lines 144-155): when a
vertex list is cached, the call `MeshGroup(SceneGroup(rect=self.rect,
parent=self.group), transform=transform)` passes the `SceneGroup`
positionally to `MeshGroup`'s `transform` parameter and then passes
`transform` again by keyword, so it raises `TypeError` (multiple values
for argument `transform`; when the module is imported rather than run as
a script the keyword's name lookup raises `NameError` first) — in either
case before `batch.migrate` runs and before `self.mesh_group` is
assigned. -/
def MeshWidget.do_regroup (w : MeshWidget) : MeshWidget × Option PyErr :=
  match w.vertex_list with
  | none => (w, none)
  | some _ => (w, some .typeError)

/-- `MeshWidget.do_undraw` (`mesh_widget.py` lines 170-173). -/
def MeshWidget.do_undraw (w : MeshWidget) : MeshWidget :=
  match w.vertex_list with
  | none => w
  | some _ => { w with vertex_list := none }

/-! ## The GL render state and the group state stack discipline

A shallow embedding of the OpenGL client state the groups manipulate:
matrix-mode-indexed matrix stacks, the attribute (enable-bit) stack, the
viewport and the other scalar state `set_state` writes.  Matrix values
are kept symbolic (`GLMat`), since the claims concern stack discipline,
not numeric matrix contents.  Fixed-function material/light parameter
calls (`glMaterialfv`, `glLightfv`, ...) set state none of the claims
observe and are modelled as the `lightingParams` flag their enclosing
helpers flip. -/

/-- `glMatrixMode` targets used by the code. -/
inductive MatMode
  | modelview
  | projection
deriving DecidableEq

/-- A symbolic GL matrix: identity (`glLoadIdentity`), a perspective
matrix multiplied on (`gluPerspective`), or a transform multiplied on
(`glMultMatrixf`). -/
inductive GLMat
  | ident : GLMat
  | persp (fovy aspect near far : ℚ) (prev : GLMat) : GLMat
  | mulAff (prev : GLMat) (m : Aff) : GLMat

/-- The enable bits (`GL_ENABLE_BIT` attribute group) touched by the
groups: the capabilities passed to `glEnable`/`glDisable`, including
texture targets. -/
structure EnableBits where
  scissorTest : Bool
  depthTest : Bool
  cullFace : Bool
  colorMaterial : Bool
  blend : Bool
  lineSmooth : Bool
  lighting : Bool
  light0 : Bool
  texTargets : List ℕ

/-- The GL client state the two groups read and write. -/
structure GLState where
  matrixMode : MatMode
  proj : GLMat
  projStack : List GLMat
  modelview : GLMat
  mvStack : List GLMat
  viewport : ℤ × ℤ × ℤ × ℤ
  enables : EnableBits
  attribStack : List EnableBits
  scissorBox : ℤ × ℤ × ℤ × ℤ
  clearColor : ℚ × ℚ × ℚ × ℚ
  depthRange : ℚ × ℚ
  depthFunc : ℕ
  clearDepth : ℚ
  shadeModel : ℕ
  blendFunc : ℕ × ℕ
  lineWidth : ℚ
  pointSize : ℚ
  lightingParams : Bool
  boundTexture : Option (ℕ × ℕ)
  clearCount : ℕ

/-- A push or pop on one of the GL server stacks; the trace these events
form is what the matching-pop claim is about. -/
inductive StackEv
  | pushAttrib
  | popAttrib
  | pushMat (m : MatMode)
  | popMat (m : MatMode)
deriving DecidableEq

/-- Python `int()` on a rational: truncation toward zero. -/
def pyInt (q : ℚ) : ℤ := Int.tdiv q.num q.den

/-- The integer `glGetIntegerv(GL_MATRIX_MODE)` reports for each mode. -/
def encodeMode : MatMode → ℕ
  | .modelview => 0
  | .projection => 1

/-- `glPushAttrib(GL_ENABLE_BIT)`. -/
def glPushAttrib (s : GLState) : GLState × List StackEv :=
  ({ s with attribStack := s.enables :: s.attribStack }, [.pushAttrib])

/-- `glPopAttrib()`. -/
def glPopAttrib (s : GLState) : GLState × List StackEv :=
  (match s.attribStack with
    | e :: rest => { s with enables := e, attribStack := rest }
    | [] => s, [.popAttrib])

/-- `glPushMatrix()`: pushes the current matrix of the current mode. -/
def glPushMatrix (s : GLState) : GLState × List StackEv :=
  (match s.matrixMode with
    | .projection => { s with projStack := s.proj :: s.projStack }
    | .modelview => { s with mvStack := s.modelview :: s.mvStack },
   [.pushMat s.matrixMode])

/-- `glPopMatrix()`: pops the current mode's stack into its current
matrix. -/
def glPopMatrix (s : GLState) : GLState × List StackEv :=
  (match s.matrixMode with
    | .projection =>
      match s.projStack with
      | m :: rest => { s with proj := m, projStack := rest }
      | [] => s
    | .modelview =>
      match s.mvStack with
      | m :: rest => { s with modelview := m, mvStack := rest }
      | [] => s,
   [.popMat s.matrixMode])

/-- `glMatrixMode(mode)`. -/
def glMatrixModeSet (m : MatMode) (s : GLState) : GLState :=
  { s with matrixMode := m }

/-- `glLoadIdentity()`. -/
def glLoadIdentity (s : GLState) : GLState :=
  match s.matrixMode with
  | .projection => { s with proj := .ident }
  | .modelview => { s with modelview := .ident }

/-- `gluPerspective(fovy, aspect, near, far)`: multiplies the current
matrix by the perspective matrix. -/
def gluPerspective (fovy aspect near far : ℚ) (s : GLState) : GLState :=
  match s.matrixMode with
  | .projection => { s with proj := .persp fovy aspect near far s.proj }
  | .modelview => { s with modelview := .persp fovy aspect near far s.modelview }

/-- `glMultMatrixf(trimesh.rendering.matrix_to_gl(m))`. -/
def glMultMatrixAff (m : Aff) (s : GLState) : GLState :=
  match s.matrixMode with
  | .projection => { s with proj := .mulAff s.proj m }
  | .modelview => { s with modelview := .mulAff s.modelview m }

/-- The `_enable_depth` / `_enable_color_material` / `_enable_blending` /
`_enable_smooth_lines` / `_enable_lighting` helper chain of `SceneGroup`
(`scene_widget.py` lines 91-130): enables the fixed-function
capabilities and sets their scalar parameters. -/
def enableHelpers (s : GLState) : GLState :=
  { s with
    enables := { s.enables with
      depthTest := true, cullFace := true, colorMaterial := true,
      blend := true, lineSmooth := true, lighting := true, light0 := true }
    depthRange := (0, 100)
    depthFunc := 1
    clearDepth := 1
    shadeModel := 1
    blendFunc := (1, 2)
    lineWidth := 3 / 2
    pointSize := 4
    lightingParams := true }

/-- `_clear_buffers` (`glClear(GL_COLOR_BUFFER_BIT | GL_DEPTH_BUFFER_BIT)`). -/
def clearBuffers (s : GLState) : GLState :=
  { s with clearCount := s.clearCount + 1 }

/-- `SceneGroup.set_state` (`scene_widget.py` lines 36-72): pushes the
enable-bit attribute group, establishes the scissor rectangle, saves the
entry matrix mode and viewport into the group, sets the widget viewport,
pushes and rebuilds the projection matrix, enables the fixed-function
state, clears the buffers, and pushes and rebuilds the modelview matrix
from the camera and view transforms. -/
def SceneGroup.set_state (g : SceneGroup) (s0 : GLState) :
    SceneGroup × GLState × List StackEv :=
  let r1 := glPushAttrib s0
  let s := r1.1
  let s := { s with enables := { s.enables with scissorTest := true } }
  let s := { s with scissorBox :=
    (pyInt g.rect.left, pyInt g.rect.bottom, pyInt g.rect.width, pyInt g.rect.height) }
  let g := { g with savedMode := some (encodeMode s.matrixMode)
                    savedViewport := some s.viewport }
  let s := { s with viewport :=
    (pyInt g.rect.left, pyInt g.rect.bottom, pyInt g.rect.width, pyInt g.rect.height) }
  let s := glMatrixModeSet .projection s
  let r2 := glPushMatrix s
  let s := r2.1
  let s := glLoadIdentity s
  let s := gluPerspective g.camera_fovy
    ((pyInt g.rect.width : ℚ) / (pyInt g.rect.height : ℚ)) (1 / 100) 1000 s
  let s := glMatrixModeSet .modelview s
  let s := { s with clearColor := (99 / 100, 99 / 100, 99 / 100, 1) }
  let s := enableHelpers s
  let s := clearBuffers s
  let r3 := glPushMatrix s
  let s := r3.1
  let s := glLoadIdentity s
  let s := glMultMatrixAff g.camera_transform s
  let s := glMultMatrixAff g.view_transform s
  (g, s, r1.2 ++ r2.2 ++ r3.2)

/-- Decodes the saved `GL_MATRIX_MODE` integer back into a mode, as
`glMatrixMode(self._mode.value)` does. -/
def decodeMode (n : ℕ) : MatMode :=
  if n = 1 then .projection else .modelview

/-- `SceneGroup.unset_state` (`scene_widget.py` lines 74-89): pops the
modelview matrix, resets the clear color, pops the projection matrix, and
restores the saved matrix mode and viewport before popping the attribute
group. -/
def SceneGroup.unset_state (g : SceneGroup) (s0 : GLState) :
    GLState × List StackEv :=
  let r1 := glPopMatrix s0
  let s := r1.1
  let s := { s with clearColor := (0, 0, 0, 0) }
  let s := glMatrixModeSet .projection s
  let r2 := glPopMatrix s
  let s := r2.1
  let s := glMatrixModeSet (decodeMode (g.savedMode.getD 0)) s
  let s := { s with viewport := g.savedViewport.getD s.viewport }
  let r3 := glPopAttrib s
  (r3.1, r1.2 ++ r2.2 ++ r3.2)

/-- `glEnable(texture.target)` followed by
`glBindTexture(texture.target, texture.id)`. -/
def glEnableBindTexture (t : Texture) (s : GLState) : GLState :=
  { s with
    enables := { s.enables with texTargets := t.target :: s.enables.texTargets }
    boundTexture := some (t.target, t.texId) }

/-- `glDisable(texture.target)`. -/
def glDisableTexture (t : Texture) (s : GLState) : GLState :=
  { s with enables := { s.enables with
      texTargets := s.enables.texTargets.erase t.target } }

/-- `MeshGroup.set_state` (`scene_widget.py` lines 145-151): pushes the
(modelview) matrix, multiplies the object transform on, and enables and
binds the texture when the group has one. -/
def MeshGroup.set_state (g : MeshGroup) (s0 : GLState) :
    GLState × List StackEv :=
  let r1 := glPushMatrix s0
  let s := glMultMatrixAff g.transform r1.1
  let s := match g.texture with
    | some t => glEnableBindTexture t s
    | none => s
  (s, r1.2)

/-- `MeshGroup.unset_state` (`scene_widget.py` lines 153-157): disables
the texture when present, then pops the matrix. -/
def MeshGroup.unset_state (g : MeshGroup) (s0 : GLState) :
    GLState × List StackEv :=
  let s := match g.texture with
    | some t => glDisableTexture t s0
    | none => s0
  let r1 := glPopMatrix s
  (r1.1, r1.2)

/-! ## Lemmas about the sync loop -/

theorem dictLookup_isSome_dictInsert (g k : String) (v : α)
    (d : List (String × α)) (h : (dictLookup g d).isSome = true) :
    (dictLookup g (dictInsert k v d)).isSome = true := by
  by_cases hk : g = k
  · subst hk
    simp
  · rwa [dictLookup_dictInsert_ne g k v d hk]

theorem dictLookup_isSome_ne_nil (g : String) (d : List (String × α))
    (h : (dictLookup g d).isSome = true) : d ≠ [] := by
  intro hd
  subst hd
  simp [dictLookup] at h

/-- `processNodes` never touches the widget's scene. -/
theorem processNodes_scene (l : List String) (sg : SceneGroup) (w : SceneWidget) :
    (processNodes sg l w).1.scene = w.scene := by
  induction l generalizing sg w with
  | nil => simp [processNodes]
  | cons n rest ih =>
    by_cases hT : (w.scene.geometry (w.scene.graphLookup n).2).isTrimesh = false
    · simp [processNodes, hT]
    · cases hvm : (w.scene.geometry (w.scene.graphLookup n).2).visualMaterial with
      | none => simp [processNodes, hT, hvm, ih]
      | some m => simp [processNodes, hT, hvm, ih]

/-- One successful pass of the sync loop: no exception, one vertex-list
build per node, already-cached identities still cached, and every
processed node's identity cached afterwards. -/
theorem processNodes_ok (l : List String) (sg : SceneGroup) (w : SceneWidget)
    (hT : ∀ n ∈ l, (w.scene.geometry (w.scene.graphLookup n).2).isTrimesh = true) :
    (processNodes sg l w).2 = none ∧
    (processNodes sg l w).1.batch.nextId = w.batch.nextId + l.length ∧
    (∀ g, (dictLookup g w.vertex_list).isSome = true →
      (dictLookup g (processNodes sg l w).1.vertex_list).isSome = true) ∧
    (∀ n ∈ l, (dictLookup (w.scene.graphLookup n).2
      (processNodes sg l w).1.vertex_list).isSome = true) := by
  induction l generalizing sg w with
  | nil => simp [processNodes]
  | cons n rest ih =>
    have hTn : (w.scene.geometry (w.scene.graphLookup n).2).isTrimesh = true :=
      hT n (List.mem_cons_self n rest)
    have hTn' : ¬((w.scene.geometry (w.scene.graphLookup n).2).isTrimesh = false) := by
      simp [hTn]
    cases hvm : (w.scene.geometry (w.scene.graphLookup n).2).visualMaterial with
    | none =>
      simp only [processNodes, hvm, if_neg hTn']
      set w' : SceneWidget := { w with
        batch := w.batch.add_indexed.2
        vertex_list := dictInsert (w.scene.graphLookup n).2 w.batch.add_indexed.1
          w.vertex_list } with hw'
      have hscene : w'.scene = w.scene := rfl
      have hT' : ∀ n' ∈ rest, (w'.scene.geometry (w'.scene.graphLookup n').2).isTrimesh = true := by
        intro n' hn'
        rw [hscene]
        exact hT n' (List.mem_cons_of_mem n hn')
      obtain ⟨h1, h2, h3, h4⟩ := ih sg w' hT'
      refine ⟨h1, ?_, ?_, ?_⟩
      · rw [h2]
        simp [hw', Batch.add_indexed]
        omega
      · intro g hg
        exact h3 g (dictLookup_isSome_dictInsert g _ _ _ hg)
      · intro n' hn'
        rcases List.mem_cons.mp hn' with hn' | hn'
        · subst hn'
          apply h3
          simp [hw']
        · have := h4 n' hn'
          rwa [hscene] at this
    | some m =>
      simp only [processNodes, hvm, if_neg hTn']
      set w' : SceneWidget := { w with
        textures := dictInsert (w.scene.graphLookup n).2 (material_to_texture m) w.textures
        batch := w.batch.add_indexed.2
        vertex_list := dictInsert (w.scene.graphLookup n).2 w.batch.add_indexed.1
          w.vertex_list } with hw'
      have hscene : w'.scene = w.scene := rfl
      have hT' : ∀ n' ∈ rest, (w'.scene.geometry (w'.scene.graphLookup n').2).isTrimesh = true := by
        intro n' hn'
        rw [hscene]
        exact hT n' (List.mem_cons_of_mem n hn')
      obtain ⟨h1, h2, h3, h4⟩ := ih sg w' hT'
      refine ⟨h1, ?_, ?_, ?_⟩
      · rw [h2]
        simp [hw', Batch.add_indexed]
        omega
      · intro g hg
        exact h3 g (dictLookup_isSome_dictInsert g _ _ _ hg)
      · intro n' hn'
        rcases List.mem_cons.mp hn' with hn' | hn'
        · subst hn'
          apply h3
          simp [hw']
        · have := h4 n' hn'
          rwa [hscene] at this

/-- The sync loop keeps the vertex-list cache keys free of duplicates:
at most one cached resource per geometry identity. -/
theorem processNodes_keys_nodup (l : List String) (sg : SceneGroup) (w : SceneWidget)
    (h : (w.vertex_list.map Prod.fst).Nodup) :
    ((processNodes sg l w).1.vertex_list.map Prod.fst).Nodup := by
  induction l generalizing sg w with
  | nil => simpa [processNodes]
  | cons n rest ih =>
    by_cases hT : (w.scene.geometry (w.scene.graphLookup n).2).isTrimesh = false
    · simpa [processNodes, hT]
    · cases hvm : (w.scene.geometry (w.scene.graphLookup n).2).visualMaterial with
      | none =>
        simp only [processNodes, hvm, if_neg hT]
        exact ih _ _ (dictInsert_keys_nodup _ _ _ h)
      | some m =>
        simp only [processNodes, hvm, if_neg hT]
        exact ih _ _ (dictInsert_keys_nodup _ _ _ h)

/-- The sync loop writes the texture cache only at the geometry
identities of the nodes it processes. -/
theorem processNodes_textures_other (l : List String) (sg : SceneGroup)
    (w : SceneWidget) (g : String)
    (hg : g ∉ l.map fun n => (w.scene.graphLookup n).2) :
    dictLookup g (processNodes sg l w).1.textures = dictLookup g w.textures := by
  induction l generalizing sg w with
  | nil => simp [processNodes]
  | cons n rest ih =>
    simp only [List.map_cons, List.mem_cons, not_or] at hg
    by_cases hT : (w.scene.geometry (w.scene.graphLookup n).2).isTrimesh = false
    · simp [processNodes, hT]
    · cases hvm : (w.scene.geometry (w.scene.graphLookup n).2).visualMaterial with
      | none =>
        simp only [processNodes, hvm, if_neg hT]
        exact ih _ { w with
          batch := w.batch.add_indexed.2
          vertex_list := dictInsert (w.scene.graphLookup n).2 w.batch.add_indexed.1
            w.vertex_list } hg.2
      | some m =>
        simp only [processNodes, hvm, if_neg hT]
        rw [ih _ { w with
          textures := dictInsert (w.scene.graphLookup n).2 (material_to_texture m) w.textures
          batch := w.batch.add_indexed.2
          vertex_list := dictInsert (w.scene.graphLookup n).2 w.batch.add_indexed.1
            w.vertex_list } hg.2]
        exact dictLookup_dictInsert_ne g _ _ _ hg.1

/-- Untextured fallback of the sync loop: when a node's material converts
to no texture, the loop still caches the node's identity with `None`
stored in the texture cache (provided the scene's geometry identities are
distinct, so no later node overwrites the entry). -/
theorem processNodes_untextured (l : List String) (sg : SceneGroup) (w : SceneWidget)
    (hT : ∀ n ∈ l, (w.scene.geometry (w.scene.graphLookup n).2).isTrimesh = true)
    (hN : (l.map fun n => (w.scene.graphLookup n).2).Nodup)
    (n : String) (hn : n ∈ l) (m : Material)
    (hm : (w.scene.geometry (w.scene.graphLookup n).2).visualMaterial = some m)
    (hmt : material_to_texture m = none) :
    dictLookup (w.scene.graphLookup n).2 (processNodes sg l w).1.textures = some none := by
  induction l generalizing sg w with
  | nil => simp at hn
  | cons n0 rest ih =>
    have hTn0 : (w.scene.geometry (w.scene.graphLookup n0).2).isTrimesh = true :=
      hT n0 (List.mem_cons_self n0 rest)
    have hTn0' : ¬((w.scene.geometry (w.scene.graphLookup n0).2).isTrimesh = false) := by
      simp [hTn0]
    simp only [List.map_cons, List.nodup_cons] at hN
    rcases List.mem_cons.mp hn with hn0 | hnrest
    · subst hn0
      simp only [processNodes, hm, if_neg hTn0']
      set w' : SceneWidget := { w with
        textures := dictInsert (w.scene.graphLookup n).2 (material_to_texture m) w.textures
        batch := w.batch.add_indexed.2
        vertex_list := dictInsert (w.scene.graphLookup n).2 w.batch.add_indexed.1
          w.vertex_list } with hw'
      have hg : (w.scene.graphLookup n).2 ∉ rest.map fun n' => (w'.scene.graphLookup n').2 :=
        hN.1
      rw [processNodes_textures_other rest _ w' _ hg]
      simp [hw', hmt]
    · cases hvm0 : (w.scene.geometry (w.scene.graphLookup n0).2).visualMaterial with
      | none =>
        simp only [processNodes, hvm0, if_neg hTn0']
        exact ih _ { w with
            batch := w.batch.add_indexed.2
            vertex_list := dictInsert (w.scene.graphLookup n0).2 w.batch.add_indexed.1
              w.vertex_list }
          (fun n' hn' => hT n' (List.mem_cons_of_mem n0 hn')) hN.2 hnrest hm
      | some m0 =>
        simp only [processNodes, hvm0, if_neg hTn0']
        exact ih _ { w with
            textures := dictInsert (w.scene.graphLookup n0).2 (material_to_texture m0) w.textures
            batch := w.batch.add_indexed.2
            vertex_list := dictInsert (w.scene.graphLookup n0).2 w.batch.add_indexed.1
              w.vertex_list }
          (fun n' hn' => hT n' (List.mem_cons_of_mem n0 hn')) hN.2 hnrest hm

/-! ## Draw lemmas -/

/-- `do_draw` with a populated cache returns immediately: no state change
and no exception (`scene_widget.py` lines 209-212). -/
theorem do_draw_cached (w : SceneWidget) (h : w.vertex_list ≠ []) :
    w.do_draw = (w, none) := by
  simp [SceneWidget.do_draw, h]

/-- `N` successive draw requests on the widget
(`do_draw` composed `N` times, dropping the per-call exception slot). -/
noncomputable def drawN : ℕ → SceneWidget → SceneWidget
  | 0, w => w
  | n + 1, w => drawN n w.do_draw.1

theorem drawN_cached (n : ℕ) (w : SceneWidget) (h : w.vertex_list ≠ []) :
    drawN n w = w := by
  induction n with
  | zero => rfl
  | succ k ih =>
    show drawN k w.do_draw.1 = w
    rw [do_draw_cached w h]
    exact ih

/-- The first draw on an empty cache: when every geometry is a Trimesh it
completes without exception, builds exactly one vertex list per geometry
node, yields duplicate-free cache keys, caches every node's geometry
identity, and leaves the cache non-empty whenever the scene has nodes. -/
theorem do_draw_first (w : SceneWidget) (hvl : w.vertex_list = [])
    (hT : ∀ n ∈ w.scene.nodesGeometry,
      (w.scene.geometry (w.scene.graphLookup n).2).isTrimesh = true) :
    w.do_draw.2 = none ∧
    w.do_draw.1.batch.nextId = w.batch.nextId + w.scene.nodesGeometry.length ∧
    (w.do_draw.1.vertex_list.map Prod.fst).Nodup ∧
    (∀ n ∈ w.scene.nodesGeometry,
      (dictLookup (w.scene.graphLookup n).2 w.do_draw.1.vertex_list).isSome = true) ∧
    (w.scene.nodesGeometry ≠ [] → w.do_draw.1.vertex_list ≠ []) := by
  cases htb : w.trackball with
  | none =>
    simp only [SceneWidget.do_draw, if_pos hvl, SceneWidget.getTrackball, htb]
    set w' : SceneWidget := { w with
      trackball := some
        { size := (w.rect.width, w.rect.height)
          scale := w.scene.scale
          pivot := w.scene.centroid
          state := .rotate
          startPoint := (0, 0)
          snapshot := Aff.id4
          current := Aff.id4 }
      scene_group := some
        { rect := w.rect
          camera_fovy := w.scene.camera.fov1
          camera_transform := w.scene.camera.transform.inv
          view_transform := Aff.id4 } } with hw'
    obtain ⟨h1, h2, h3, h4⟩ := processNodes_ok w.scene.nodesGeometry
      { rect := w.rect
        camera_fovy := w.scene.camera.fov1
        camera_transform := w.scene.camera.transform.inv
        view_transform := Aff.id4 } w' hT
    refine ⟨h1, h2, ?_, h4, ?_⟩
    · apply processNodes_keys_nodup
      show (w.vertex_list.map Prod.fst).Nodup
      simp [hvl]
    · intro hne
      obtain ⟨n0, hn0⟩ := List.exists_mem_of_ne_nil _ hne
      exact dictLookup_isSome_ne_nil _ _ (h4 n0 hn0)
  | some t =>
    simp only [SceneWidget.do_draw, if_pos hvl, SceneWidget.getTrackball, htb]
    set w' : SceneWidget := { w with
      trackball := some t
      scene_group := some
        { rect := w.rect
          camera_fovy := w.scene.camera.fov1
          camera_transform := w.scene.camera.transform.inv
          view_transform := t.current } } with hw'
    obtain ⟨h1, h2, h3, h4⟩ := processNodes_ok w.scene.nodesGeometry
      { rect := w.rect
        camera_fovy := w.scene.camera.fov1
        camera_transform := w.scene.camera.transform.inv
        view_transform := t.current } w' hT
    refine ⟨h1, h2, ?_, h4, ?_⟩
    · apply processNodes_keys_nodup
      show (w.vertex_list.map Prod.fst).Nodup
      simp [hvl]
    · intro hne
      obtain ⟨n0, hn0⟩ := List.exists_mem_of_ne_nil _ hne
      exact dictLookup_isSome_ne_nil _ _ (h4 n0 hn0)

/-! ## Concrete fixtures -/

/-- A `trimesh.Trimesh` geometry with no material. -/
def plainGeometry : Geometry := ⟨true, none⟩

/-- A concrete widget rectangle. -/
def rect0 : Rect := ⟨0, 0, 640, 480⟩

/-- A concrete scene with three nodes, each with its own geometry. -/
def scene3 : Scene :=
  { camera := ⟨45, Aff.id4⟩
    nodesGeometry := ["a", "b", "c"]
    graphLookup := fun n => (Aff.id4, n)
    geometry := fun _ => plainGeometry
    scale := 1
    centroid := fun _ => 0 }

/-- A bound, attached widget over `scene3`, before its first draw. -/
def widget3 : SceneWidget := SceneWidget.init scene3 rect0 true

/-- A widget over `scene3` whose cache is already populated. -/
def widgetCached : SceneWidget :=
  { widget3 with vertex_list := [("a", 0)], batch := ⟨1⟩ }

/-- A `MeshWidget` whose vertex list is already built. -/
def meshCached : MeshWidget :=
  { transform := Aff.id4
    rect := rect0
    attached := true
    vertex_list := some 0
    mesh_group := none
    batch := ⟨1⟩ }

/-- A concrete scene whose two nodes share one geometry identity. -/
def sceneDup : Scene :=
  { camera := ⟨45, Aff.id4⟩
    nodesGeometry := ["n1", "n2"]
    graphLookup := fun _ => (Aff.id4, "g")
    geometry := fun _ => plainGeometry
    scale := 1
    centroid := fun _ => 0 }

/-- A bound, attached widget over `sceneDup`, before its first draw. -/
def widgetDup : SceneWidget := SceneWidget.init sceneDup rect0 true

/-- A concrete scene with no geometry nodes. -/
def sceneEmpty : Scene :=
  { camera := ⟨45, Aff.id4⟩
    nodesGeometry := []
    graphLookup := fun n => (Aff.id4, n)
    geometry := fun _ => plainGeometry
    scale := 1
    centroid := fun _ => 0 }

/-- A bound, attached widget over `sceneEmpty`. -/
def widgetEmpty : SceneWidget := SceneWidget.init sceneEmpty rect0 true

/-! ## Claim C1 -/

/-- C1: repeated draw requests build GPU resources only on the first one.
`SceneWidget.do_draw` with a non-empty vertex-list cache returns without
creating any vertex list or texture and leaves the whole widget state
unchanged; `MeshWidget.do_draw` with its vertex list set likewise; and
drawing `N ≥ 1` times on an unchanged all-Trimesh scene with 3 geometry
nodes allocates exactly 3 vertex lists in total, independent of `N`. -/
theorem claim1_resources_built_once :
    (∀ w : SceneWidget, w.vertex_list ≠ [] → w.do_draw = (w, none)) ∧
    (∀ mw : MeshWidget, mw.vertex_list.isSome = true → mw.do_draw = mw) ∧
    (∀ (w : SceneWidget) (N : ℕ), w.vertex_list = [] →
      (∀ n ∈ w.scene.nodesGeometry,
        (w.scene.geometry (w.scene.graphLookup n).2).isTrimesh = true) →
      w.scene.nodesGeometry.length = 3 → 1 ≤ N →
      (drawN N w).batch.nextId = w.batch.nextId + 3) := by
  refine ⟨do_draw_cached, ?_, ?_⟩
  · intro mw h
    cases hvl : mw.vertex_list with
    | none => rw [hvl] at h; simp at h
    | some v => simp [MeshWidget.do_draw, hvl]
  · intro w N hvl hT hlen hN
    obtain ⟨h1, h2, h3, h4, h5⟩ := do_draw_first w hvl hT
    cases N with
    | zero => omega
    | succ k =>
      show (drawN k w.do_draw.1).batch.nextId = _
      rw [drawN_cached k _ (h5 (by intro hh; rw [hh] at hlen; simp at hlen))]
      rw [h2, hlen]

/-- Witness for C1 at concrete widgets: a populated scene widget, a
populated mesh widget, and three draws on the fresh three-geometry
widget. -/
theorem claim1_resources_built_once_witness :
    (widgetCached.vertex_list ≠ [] ∧ widgetCached.do_draw = (widgetCached, none)) ∧
    (meshCached.vertex_list.isSome = true ∧ meshCached.do_draw = meshCached) ∧
    (widget3.vertex_list = [] ∧
      (∀ n ∈ widget3.scene.nodesGeometry,
        (widget3.scene.geometry (widget3.scene.graphLookup n).2).isTrimesh = true) ∧
      widget3.scene.nodesGeometry.length = 3 ∧ 1 ≤ 3 ∧
      (drawN 3 widget3).batch.nextId = widget3.batch.nextId + 3) :=
  ⟨⟨by decide, claim1_resources_built_once.1 widgetCached (by decide)⟩,
   ⟨by decide, claim1_resources_built_once.2.1 meshCached (by decide)⟩,
   ⟨by decide, by decide, by decide, by decide,
    claim1_resources_built_once.2.2 widget3 3 (by decide) (by decide) (by decide)
      (by decide)⟩⟩

/-! ## Claim C3 -/

/-- C3 counterexample: `sceneDup` has two geometry nodes sharing a single
distinct geometry identity, yet the first sync builds two vertex lists
(`do_draw` iterates over geometry nodes, not distinct identities), so the
build count (2) differs from the distinct-identity count (1). -/
theorem claim3_counterexample :
    ((widgetDup.scene.nodesGeometry.map
      fun n => (widgetDup.scene.graphLookup n).2).dedup.length = 1) ∧
    widgetDup.batch.nextId = 0 ∧
    widgetDup.do_draw.1.batch.nextId = 2 := by
  refine ⟨by decide, by decide, ?_⟩
  rfl

/-- C3 amended: one sync from an empty cache on an all-Trimesh scene
creates exactly one vertex list per geometry NODE (the build count equals
the node count, so nodes sharing a geometry build it repeatedly), while
the cache keys — geometry identities — remain duplicate-free, so at most
one resource is cached per identity at any time (later nodes overwrite
earlier entries). -/
theorem claim3_one_build_per_node (w : SceneWidget) (hvl : w.vertex_list = [])
    (hT : ∀ n ∈ w.scene.nodesGeometry,
      (w.scene.geometry (w.scene.graphLookup n).2).isTrimesh = true) :
    w.do_draw.2 = none ∧
    w.do_draw.1.batch.nextId = w.batch.nextId + w.scene.nodesGeometry.length ∧
    (w.do_draw.1.vertex_list.map Prod.fst).Nodup := by
  obtain ⟨h1, h2, h3, h4, h5⟩ := do_draw_first w hvl hT
  exact ⟨h1, h2, h3⟩

/-- Witness for the amended C3 at the shared-geometry widget. -/
theorem claim3_one_build_per_node_witness :
    (widgetDup.vertex_list = [] ∧
      (∀ n ∈ widgetDup.scene.nodesGeometry,
        (widgetDup.scene.geometry (widgetDup.scene.graphLookup n).2).isTrimesh = true)) ∧
    (widgetDup.do_draw.2 = none ∧
      widgetDup.do_draw.1.batch.nextId =
        widgetDup.batch.nextId + widgetDup.scene.nodesGeometry.length ∧
      (widgetDup.do_draw.1.vertex_list.map Prod.fst).Nodup) :=
  ⟨⟨by decide, by decide⟩, claim3_one_build_per_node widgetDup (by decide) (by decide)⟩

/-! ## Claim C9 -/

/-- C9: sync on a scene with zero geometry nodes leaves both caches empty
and adds nothing to the batch, with no exception. -/
theorem claim9_empty_scene_sync (w : SceneWidget) (hvl : w.vertex_list = [])
    (htx : w.textures = []) (hn : w.scene.nodesGeometry = []) :
    w.do_draw.2 = none ∧ w.do_draw.1.vertex_list = [] ∧
    w.do_draw.1.textures = [] ∧ w.do_draw.1.batch = w.batch := by
  cases htb : w.trackball with
  | none =>
    simp [SceneWidget.do_draw, hvl, SceneWidget.getTrackball, htb, hn,
      processNodes, htx]
  | some t =>
    simp [SceneWidget.do_draw, hvl, SceneWidget.getTrackball, htb, hn,
      processNodes, htx]

/-- Witness for C9 at the widget over the empty scene. -/
theorem claim9_empty_scene_sync_witness :
    (widgetEmpty.vertex_list = [] ∧ widgetEmpty.textures = [] ∧
      widgetEmpty.scene.nodesGeometry = []) ∧
    (widgetEmpty.do_draw.2 = none ∧ widgetEmpty.do_draw.1.vertex_list = [] ∧
      widgetEmpty.do_draw.1.textures = [] ∧
      widgetEmpty.do_draw.1.batch = widgetEmpty.batch) :=
  ⟨⟨by decide, by decide, by decide⟩,
   claim9_empty_scene_sync widgetEmpty (by decide) (by decide) (by decide)⟩

/-! ## Claim C2 -/

/-- C2 (code bug): with a populated cache, `SceneWidget.do_regroup`
rebuilds the scene group but then raises `NameError` on the unbound name
`transform` in its loop body (`scene_widget.py` line 197) before any
`batch.migrate` call, so no cached vertex list is ever reassigned: the
cache and batch are untouched when the exception propagates.
`MeshWidget.do_regroup` likewise raises (`mesh_widget.py` line 148 passes
two values for `MeshGroup`'s `transform` argument) before migrating. -/
theorem claim2_regroup_raises :
    widgetCached.vertex_list ≠ [] ∧
    widgetCached.do_regroup.2 = some PyErr.nameError ∧
    widgetCached.do_regroup.1.vertex_list = widgetCached.vertex_list ∧
    widgetCached.do_regroup.1.batch = widgetCached.batch ∧
    meshCached.vertex_list.isSome = true ∧
    meshCached.do_regroup.2 = some PyErr.typeError ∧
    meshCached.do_regroup.1 = meshCached := by
  refine ⟨by decide, rfl, rfl, rfl, by decide, rfl, rfl⟩

/-! ## Claim C4 -/

/-- A geometry that is not a `trimesh.Trimesh`. -/
def nonTrimeshGeometry : Geometry := ⟨false, none⟩

/-- A scene whose first geometry node is not a Trimesh while the second
is fine. -/
def sceneBad : Scene :=
  { camera := ⟨45, Aff.id4⟩
    nodesGeometry := ["n1", "n2"]
    graphLookup := fun n => (Aff.id4, n)
    geometry := fun g => if g = "n1" then nonTrimeshGeometry else plainGeometry
    scale := 1
    centroid := fun _ => 0 }

/-- A bound, attached widget over `sceneBad`, before its first draw. -/
def widgetBad : SceneWidget := SceneWidget.init sceneBad rect0 true

/-- A material with no image, so `material_to_texture` yields `None`. -/
def imagelessMaterial : Material := ⟨none⟩

/-- A Trimesh geometry whose material converts to no texture. -/
def untexturedGeometry : Geometry := ⟨true, some imagelessMaterial⟩

/-- A scene mixing an untextured-material geometry with a plain one. -/
def sceneUntex : Scene :=
  { camera := ⟨45, Aff.id4⟩
    nodesGeometry := ["u", "v"]
    graphLookup := fun n => (Aff.id4, n)
    geometry := fun g => if g = "u" then untexturedGeometry else plainGeometry
    scale := 1
    centroid := fun _ => 0 }

/-- A bound, attached widget over `sceneUntex`, before its first draw. -/
def widgetUntex : SceneWidget := SceneWidget.init sceneUntex rect0 true

/-- C4 counterexample: a geometry that is not of the expected type is NOT
isolated to its node — the `assert isinstance(geometry, trimesh.Trimesh)`
raises `AssertionError`, aborting the sync of the remaining nodes: on
`sceneBad` the exception escapes `do_draw`, the second (well-formed) node
is never cached, and no vertex list at all is built. -/
theorem claim4_counterexample :
    widgetBad.do_draw.2 = some PyErr.assertionError ∧
    dictLookup "n2" widgetBad.do_draw.1.vertex_list = none ∧
    widgetBad.do_draw.1.batch.nextId = 0 := by
  refine ⟨rfl, rfl, rfl⟩

/-- Splits `do_draw` on an empty cache into its sync loop, abstracting
the trackball/scene-group bookkeeping it performs first. -/
theorem do_draw_as_processNodes (w : SceneWidget) (hvl : w.vertex_list = []) :
    ∃ (sg : SceneGroup) (w' : SceneWidget),
      w.do_draw = processNodes sg w.scene.nodesGeometry w' ∧
      w'.scene = w.scene ∧ w'.vertex_list = w.vertex_list ∧
      w'.textures = w.textures ∧ w'.batch = w.batch := by
  cases htb : w.trackball with
  | none =>
    simp only [SceneWidget.do_draw, if_pos hvl, SceneWidget.getTrackball, htb]
    exact ⟨_, _, rfl, rfl, rfl, rfl, rfl⟩
  | some t =>
    simp only [SceneWidget.do_draw, if_pos hvl, SceneWidget.getTrackball, htb]
    exact ⟨_, _, rfl, rfl, rfl, rfl, rfl⟩

/-- C4 amended: the untextured fallback is real but error isolation is
not.  When every geometry IS a Trimesh, one sync from an empty cache
completes without exception and caches every node's identity — in
particular a node whose material cannot be converted to a texture is
still cached, with `None` recorded in the texture cache (given the
scene's geometry identities are distinct); but a geometry of the wrong
type aborts the whole sync (see the counterexample). -/
theorem claim4_untextured_fallback (w : SceneWidget) (hvl : w.vertex_list = [])
    (hT : ∀ n ∈ w.scene.nodesGeometry,
      (w.scene.geometry (w.scene.graphLookup n).2).isTrimesh = true)
    (hN : (w.scene.nodesGeometry.map fun n => (w.scene.graphLookup n).2).Nodup) :
    w.do_draw.2 = none ∧
    (∀ n ∈ w.scene.nodesGeometry,
      (dictLookup (w.scene.graphLookup n).2 w.do_draw.1.vertex_list).isSome = true) ∧
    (∀ n ∈ w.scene.nodesGeometry, ∀ m : Material,
      (w.scene.geometry (w.scene.graphLookup n).2).visualMaterial = some m →
      material_to_texture m = none →
      dictLookup (w.scene.graphLookup n).2 w.do_draw.1.textures = some none) := by
  obtain ⟨sg, w', heq, hscene, hvl', htx', hb'⟩ := do_draw_as_processNodes w hvl
  have hT' : ∀ n ∈ w.scene.nodesGeometry,
      (w'.scene.geometry (w'.scene.graphLookup n).2).isTrimesh = true := by
    intro n hn
    rw [hscene]
    exact hT n hn
  obtain ⟨h1, h2, h3, h4⟩ := processNodes_ok w.scene.nodesGeometry sg w' hT'
  refine ⟨by rw [heq]; exact h1, ?_, ?_⟩
  · intro n hn
    rw [heq]
    have := h4 n hn
    rwa [hscene] at this
  · intro n hn m hm hmt
    rw [heq]
    have hN' : (w.scene.nodesGeometry.map fun n' => (w'.scene.graphLookup n').2).Nodup := by
      rw [hscene]
      exact hN
    have hm' : (w'.scene.geometry (w'.scene.graphLookup n).2).visualMaterial = some m := by
      rw [hscene]
      exact hm
    have := processNodes_untextured w.scene.nodesGeometry sg w' hT' hN' n hn m hm' hmt
    rwa [hscene] at this

/-- Witness for the amended C4 at the untextured-material widget. -/
theorem claim4_untextured_fallback_witness :
    (widgetUntex.vertex_list = [] ∧
      (∀ n ∈ widgetUntex.scene.nodesGeometry,
        (widgetUntex.scene.geometry (widgetUntex.scene.graphLookup n).2).isTrimesh = true) ∧
      (widgetUntex.scene.nodesGeometry.map
        fun n => (widgetUntex.scene.graphLookup n).2).Nodup) ∧
    (widgetUntex.do_draw.2 = none ∧
      (∀ n ∈ widgetUntex.scene.nodesGeometry,
        (dictLookup (widgetUntex.scene.graphLookup n).2
          widgetUntex.do_draw.1.vertex_list).isSome = true) ∧
      (∀ n ∈ widgetUntex.scene.nodesGeometry, ∀ m : Material,
        (widgetUntex.scene.geometry (widgetUntex.scene.graphLookup n).2).visualMaterial = some m →
        material_to_texture m = none →
        dictLookup (widgetUntex.scene.graphLookup n).2
          widgetUntex.do_draw.1.textures = some none)) :=
  ⟨⟨by decide, by decide, by decide⟩,
   claim4_untextured_fallback widgetUntex (by decide) (by decide) (by decide)⟩

/-! ## Claim C5 -/

@[simp] theorem decodeMode_encodeMode (m : MatMode) : decodeMode (encodeMode m) = m := by
  cases m <;> rfl

/-- C5: every GL stack push a group's `set_state` performs (for
`SceneGroup`: the attribute push, the projection-matrix push and the
modelview-matrix push; for `MeshGroup`: the matrix push) has exactly one
matching pop in `unset_state`, executed in reverse nesting order, and a
`set_state`/`unset_state` pair restores all three stacks, both current
matrices, the saved matrix mode and the viewport to their values from
before `set_state`. -/
theorem claim5_stack_discipline :
    (∀ (g : SceneGroup) (s : GLState),
      (g.set_state s).2.2 =
        [.pushAttrib, .pushMat .projection, .pushMat .modelview] ∧
      (SceneGroup.unset_state (g.set_state s).1 (g.set_state s).2.1).2 =
        [.popMat .modelview, .popMat .projection, .popAttrib] ∧
      (SceneGroup.unset_state (g.set_state s).1 (g.set_state s).2.1).1.projStack =
        s.projStack ∧
      (SceneGroup.unset_state (g.set_state s).1 (g.set_state s).2.1).1.mvStack =
        s.mvStack ∧
      (SceneGroup.unset_state (g.set_state s).1 (g.set_state s).2.1).1.attribStack =
        s.attribStack ∧
      (SceneGroup.unset_state (g.set_state s).1 (g.set_state s).2.1).1.proj =
        s.proj ∧
      (SceneGroup.unset_state (g.set_state s).1 (g.set_state s).2.1).1.modelview =
        s.modelview ∧
      (SceneGroup.unset_state (g.set_state s).1 (g.set_state s).2.1).1.matrixMode =
        s.matrixMode ∧
      (SceneGroup.unset_state (g.set_state s).1 (g.set_state s).2.1).1.viewport =
        s.viewport) ∧
    (∀ (mg : MeshGroup) (s : GLState),
      (mg.set_state s).2 = [.pushMat s.matrixMode] ∧
      (mg.unset_state (mg.set_state s).1).2 = [.popMat s.matrixMode] ∧
      (mg.unset_state (mg.set_state s).1).1.projStack = s.projStack ∧
      (mg.unset_state (mg.set_state s).1).1.mvStack = s.mvStack ∧
      (mg.unset_state (mg.set_state s).1).1.proj = s.proj ∧
      (mg.unset_state (mg.set_state s).1).1.modelview = s.modelview ∧
      (mg.unset_state (mg.set_state s).1).1.matrixMode = s.matrixMode ∧
      (mg.unset_state (mg.set_state s).1).1.viewport = s.viewport ∧
      (mg.unset_state (mg.set_state s).1).1.attribStack = s.attribStack) := by
  constructor
  · intro g s
    obtain ⟨mm, pr, prs, mv, mvs, vp, en, ats, sb, cc, dpr, dpf, cld, shm, blf,
      lnw, pts, ltp, btx, clc⟩ := s
    cases mm <;>
      exact ⟨rfl, rfl, rfl, rfl, rfl, rfl, rfl, rfl, rfl⟩
  · intro mg s
    obtain ⟨tr, tx, par⟩ := mg
    obtain ⟨mm, pr, prs, mv, mvs, vp, en, ats, sb, cc, dpr, dpf, cld, shm, blf,
      lnw, pts, ltp, btx, clc⟩ := s
    cases tx <;> cases mm <;>
      exact ⟨rfl, rfl, rfl, rfl, rfl, rfl, rfl, rfl, rfl⟩

/-! ## Trackball lemmas -/

theorem panVecQ_self (t : Trackball) : panVecQ t t.startPoint = 0 := by
  funext i
  fin_cases i <;> simp [panVecQ]

theorem zoomVecQ_self (t : Trackball) : zoomVecQ t t.startPoint = 0 := by
  funext i
  fin_cases i <;> simp [zoomVecQ]

theorem rotateAboutPivot_one (p : Fin 3 → ℚ) : rotateAboutPivot p 1 = Aff.id4 := by
  rw [rotateAboutPivot, Aff.ofLin_one, Aff.comp_id4_left, Aff.transl_comp_transl,
    add_neg_cancel, Aff.transl_zero]

/-- A drag whose current position equals the gesture start composes the
identity increment, in every interaction mode. -/
theorem dragIncrement_self (t : Trackball) : t.dragIncrement t.startPoint = Aff.id4 := by
  cases hs : t.state <;>
    simp [Trackball.dragIncrement, hs, rotIncrement, rollIncrement,
      rotateAboutPivot_one, panVecQ_self, zoomVecQ_self]

/-- A drag back to the gesture-start position restores the orientation
snapshot taken at `down`. -/
theorem drag_at_startPoint (t : Trackball) : (t.drag t.startPoint).current = t.snapshot := by
  simp [Trackball.drag, dragIncrement_self]

/-! ## Claim C7 -/

/-- C7: for every gesture begun at pointer position `p`, dragging to any
`q` and then back to exactly `p` restores the controller pose to the
orientation before the drag — exactly, hence within any floating-point
tolerance — and a drag whose current position equals the gesture start
produces zero rotation (the pose equals the snapshot). -/
theorem claim7_drag_reversible :
    (∀ (t : Trackball) (p q : ℚ × ℚ),
      (((t.down p).drag q).drag p).current = t.current) ∧
    (∀ t : Trackball, (t.drag t.startPoint).current = t.snapshot) := by
  refine ⟨?_, drag_at_startPoint⟩
  intro t p q
  have h1 : ((t.down p).drag q).startPoint = p := rfl
  have h2 : ((t.down p).drag q).snapshot = t.current := rfl
  calc (((t.down p).drag q).drag p).current
      = (((t.down p).drag q).drag ((t.down p).drag q).startPoint).current := by rw [h1]
    _ = ((t.down p).drag q).snapshot := drag_at_startPoint _
    _ = t.current := h2

/-! ## Widget preservation lemmas -/

/-- The sync loop never touches the trackball. -/
theorem processNodes_trackball (l : List String) (sg : SceneGroup) (w : SceneWidget) :
    (processNodes sg l w).1.trackball = w.trackball := by
  induction l generalizing sg w with
  | nil => simp [processNodes]
  | cons n rest ih =>
    by_cases hT : (w.scene.geometry (w.scene.graphLookup n).2).isTrimesh = false
    · simp [processNodes, hT]
    · cases hvm : (w.scene.geometry (w.scene.graphLookup n).2).visualMaterial with
      | none => simp [processNodes, hT, hvm, ih]
      | some m => simp [processNodes, hT, hvm, ih]

/-- Once the trackball exists, `do_draw` never replaces it. -/
theorem do_draw_trackball_some (w : SceneWidget) (t : Trackball)
    (h : w.trackball = some t) : w.do_draw.1.trackball = some t := by
  by_cases hvl : w.vertex_list = []
  · simp only [SceneWidget.do_draw, if_pos hvl, SceneWidget.getTrackball, h]
    rw [processNodes_trackball]
  · simp only [SceneWidget.do_draw, if_neg hvl]
    exact h

/-- `updateViewTransform` only touches the scene group. -/
theorem updateViewTransform_trackball (w : SceneWidget) (t : Trackball) :
    (w.updateViewTransform t).trackball = w.trackball := by
  cases hsg : w.scene_group <;> simp [SceneWidget.updateViewTransform, hsg]

/-- Once the trackball exists, a draw request never replaces it. -/
theorem widgetDraw_trackball_some (w : SceneWidget) (t : Trackball)
    (h : w.trackball = some t) : w.widgetDraw.1.trackball = some t := by
  by_cases ha : w.attached = true
  · simp only [SceneWidget.widgetDraw, if_pos ha]
    exact do_draw_trackball_some w t h
  · simp only [SceneWidget.widgetDraw, if_neg ha]
    exact h

/-- A draw request with a populated cache changes nothing. -/
theorem widgetDraw_cached (w : SceneWidget) (h : w.vertex_list ≠ []) :
    w.widgetDraw = (w, none) := by
  by_cases ha : w.attached = true
  · simp only [SceneWidget.widgetDraw, if_pos ha]
    exact do_draw_cached w h
  · simp only [SceneWidget.widgetDraw, if_neg ha]

/-! ## Claim C10 -/

/-- C10: when the previous pointer position `(x - dx, y - dy)` of a drag
event lies outside the widget's rectangle, `on_mouse_drag` re-anchors the
gesture at the current position before applying the drag, so the
controller pose after the event equals the pose before it (no rotation
jump on entry from a neighboring widget); when the previous position is
inside the rectangle no re-anchor occurs: the gesture's start point and
orientation snapshot are untouched. -/
theorem claim10_edge_crossing_reanchor (w : SceneWidget) (x y dx dy : ℚ)
    (b m : ℕ) :
    (prevOutside w.rect (x - dx) (y - dy) →
      (w.on_mouse_drag x y dx dy b m).1.trackball.map Trackball.current =
        some w.getTrackball.1.current) ∧
    (¬prevOutside w.rect (x - dx) (y - dy) →
      (w.on_mouse_drag x y dx dy b m).1.trackball.map Trackball.startPoint =
        some w.getTrackball.1.startPoint ∧
      (w.on_mouse_drag x y dx dy b m).1.trackball.map Trackball.snapshot =
        some w.getTrackball.1.snapshot) := by
  cases htb : w.trackball with
  | none =>
    constructor
    · intro hout
      simp only [SceneWidget.on_mouse_drag, SceneWidget.getTrackball, htb,
        if_pos hout]
      rw [widgetDraw_trackball_some _ _ (by rw [updateViewTransform_trackball])]
      exact congrArg some (drag_at_startPoint _)
    · intro hin
      simp only [SceneWidget.on_mouse_drag, SceneWidget.getTrackball, htb,
        if_neg hin]
      constructor <;>
        rw [widgetDraw_trackball_some _ _ (by rw [updateViewTransform_trackball])] <;>
        rfl
  | some t =>
    constructor
    · intro hout
      simp only [SceneWidget.on_mouse_drag, SceneWidget.getTrackball, htb,
        if_pos hout]
      rw [widgetDraw_trackball_some _ _ (by rw [updateViewTransform_trackball])]
      exact congrArg some (drag_at_startPoint _)
    · intro hin
      simp only [SceneWidget.on_mouse_drag, SceneWidget.getTrackball, htb,
        if_neg hin]
      constructor <;>
        rw [widgetDraw_trackball_some _ _ (by rw [updateViewTransform_trackball])] <;>
        rfl

/-- Witness for C10: a drag entering `widgetCached` from outside (the
previous position lies left of the rectangle) and one staying inside. -/
theorem claim10_edge_crossing_reanchor_witness :
    (prevOutside widgetCached.rect (5 - 10) (5 - 0) ∧
      (widgetCached.on_mouse_drag 5 5 10 0 1 0).1.trackball.map Trackball.current =
        some widgetCached.getTrackball.1.current) ∧
    (¬prevOutside widgetCached.rect (5 - 1) (5 - 1) ∧
      (widgetCached.on_mouse_drag 5 5 1 1 1 0).1.trackball.map Trackball.startPoint =
        some widgetCached.getTrackball.1.startPoint ∧
      (widgetCached.on_mouse_drag 5 5 1 1 1 0).1.trackball.map Trackball.snapshot =
        some widgetCached.getTrackball.1.snapshot) :=
  ⟨⟨by norm_num [widgetCached, widget3, SceneWidget.init, rect0, prevOutside],
    (claim10_edge_crossing_reanchor widgetCached 5 5 10 0 1 0).1
      (by norm_num [widgetCached, widget3, SceneWidget.init, rect0, prevOutside])⟩,
   ⟨by norm_num [widgetCached, widget3, SceneWidget.init, rect0, prevOutside],
    (claim10_edge_crossing_reanchor widgetCached 5 5 1 1 1 0).2
      (by norm_num [widgetCached, widget3, SceneWidget.init, rect0, prevOutside])⟩⟩

/-! ## Claim C6 -/

/-- C6 counterexample: a pointer event CAN populate the resource cache.
On the attached, not-yet-drawn widget over `scene3`, `on_mouse_press`
ends in `self._draw()`, which invokes `do_draw` and performs the first
sync: the vertex-list cache is empty before the event and non-empty
after it. -/
theorem claim6_counterexample :
    widget3.vertex_list = [] ∧
    (widget3.on_mouse_press 0 0 mouseLEFT 0).1.vertex_list ≠ [] := by
  refine ⟨rfl, ?_⟩
  decide

/-- C6 amended: a pointer handler only updates the controller state and,
when a scene group exists, its view transform, and then requests a
redraw; when the resource cache is already populated that redraw rebuilds
nothing — the vertex-list cache, texture cache and batch are unchanged
and no exception is raised.  (When the cache is empty and the widget is
attached, the trailing draw request performs the first sync, so a pointer
event can populate the cache — see the counterexample.) -/
theorem claim6_handlers_no_rebuild (w : SceneWidget) (x y dx dy : ℚ)
    (b m : ℕ) (h : w.vertex_list ≠ []) :
    ((w.on_mouse_press x y b m).2 = none ∧
      (w.on_mouse_press x y b m).1.vertex_list = w.vertex_list ∧
      (w.on_mouse_press x y b m).1.textures = w.textures ∧
      (w.on_mouse_press x y b m).1.batch = w.batch) ∧
    ((w.on_mouse_drag x y dx dy b m).2 = none ∧
      (w.on_mouse_drag x y dx dy b m).1.vertex_list = w.vertex_list ∧
      (w.on_mouse_drag x y dx dy b m).1.textures = w.textures ∧
      (w.on_mouse_drag x y dx dy b m).1.batch = w.batch) ∧
    ((w.on_mouse_scroll x y dx dy).2 = none ∧
      (w.on_mouse_scroll x y dx dy).1.vertex_list = w.vertex_list ∧
      (w.on_mouse_scroll x y dx dy).1.textures = w.textures ∧
      (w.on_mouse_scroll x y dx dy).1.batch = w.batch) := by
  have key : ∀ w' : SceneWidget, w'.vertex_list = w.vertex_list →
      w'.textures = w.textures → w'.batch = w.batch →
      w'.widgetDraw.2 = none ∧ w'.widgetDraw.1.vertex_list = w.vertex_list ∧
      w'.widgetDraw.1.textures = w.textures ∧ w'.widgetDraw.1.batch = w.batch := by
    intro w' h1 h2 h3
    rw [widgetDraw_cached w' (h1 ▸ h)]
    exact ⟨rfl, h1, h2, h3⟩
  refine ⟨?_, ?_, ?_⟩ <;>
    cases htb : w.trackball <;> cases hsg : w.scene_group <;>
      simp only [SceneWidget.on_mouse_press, SceneWidget.on_mouse_drag,
        SceneWidget.on_mouse_scroll, SceneWidget.getTrackball, htb,
        SceneWidget.updateViewTransform, hsg] <;>
      exact key _ rfl rfl rfl

/-- Witness for the amended C6 at the populated widget. -/
theorem claim6_handlers_no_rebuild_witness :
    widgetCached.vertex_list ≠ [] ∧
    (((widgetCached.on_mouse_press 1 1 1 0).2 = none ∧
      (widgetCached.on_mouse_press 1 1 1 0).1.vertex_list = widgetCached.vertex_list ∧
      (widgetCached.on_mouse_press 1 1 1 0).1.textures = widgetCached.textures ∧
      (widgetCached.on_mouse_press 1 1 1 0).1.batch = widgetCached.batch) ∧
    ((widgetCached.on_mouse_drag 1 1 2 2 1 0).2 = none ∧
      (widgetCached.on_mouse_drag 1 1 2 2 1 0).1.vertex_list = widgetCached.vertex_list ∧
      (widgetCached.on_mouse_drag 1 1 2 2 1 0).1.textures = widgetCached.textures ∧
      (widgetCached.on_mouse_drag 1 1 2 2 1 0).1.batch = widgetCached.batch) ∧
    ((widgetCached.on_mouse_scroll 1 1 2 2).2 = none ∧
      (widgetCached.on_mouse_scroll 1 1 2 2).1.vertex_list = widgetCached.vertex_list ∧
      (widgetCached.on_mouse_scroll 1 1 2 2).1.textures = widgetCached.textures ∧
      (widgetCached.on_mouse_scroll 1 1 2 2).1.batch = widgetCached.batch)) :=
  ⟨by decide, claim6_handlers_no_rebuild widgetCached 1 1 2 2 1 0 (by decide)⟩

/-! ## Claim C8 -/

/-- C8 counterexample: the navigation controller is NOT created when the
viewport is bound to the scene — immediately after `SceneWidget.__init__`
(which stores the bound scene) no trackball instance exists. -/
theorem claim8_counterexample :
    (SceneWidget.init scene3 rect0 true).trackball = none := rfl

/-- C8 amended: the controller is created lazily, on the first access to
the `_trackball` property (first pointer event or first draw request),
with its pivot equal to the scene's centroid and its scale equal to the
scene's scale as read at that moment; once created, the property returns
the stored instance with the widget unchanged — exactly one controller
instance ever exists per widget and it is never re-created. -/
theorem claim8_lazy_singleton_controller (w : SceneWidget) :
    (∀ t : Trackball, w.trackball = some t → w.getTrackball = (t, w)) ∧
    (w.trackball = none →
      w.getTrackball.1.pivot = w.scene.centroid ∧
      w.getTrackball.1.scale = w.scene.scale ∧
      w.getTrackball.1.size = (w.rect.width, w.rect.height) ∧
      w.getTrackball.2.trackball = some w.getTrackball.1) := by
  constructor
  · intro t ht
    simp [SceneWidget.getTrackball, ht]
  · intro ht
    simp [SceneWidget.getTrackball, ht]

/-- A controller instance for the C8 witness. -/
def tb0 : Trackball :=
  { size := (640, 480)
    scale := 1
    pivot := fun _ => 0
    state := .rotate
    startPoint := (0, 0)
    snapshot := Aff.id4
    current := Aff.id4 }

/-- A widget that already holds its controller. -/
def widgetWithTB : SceneWidget := { widget3 with trackball := some tb0 }

/-- Witness for the amended C8: the stored controller is returned as-is,
and a first access creates one from the scene's bounding data. -/
theorem claim8_lazy_singleton_controller_witness :
    (widgetWithTB.trackball = some tb0 ∧
      widgetWithTB.getTrackball = (tb0, widgetWithTB)) ∧
    (widget3.trackball = none ∧
      widget3.getTrackball.1.pivot = widget3.scene.centroid ∧
      widget3.getTrackball.1.scale = widget3.scene.scale ∧
      widget3.getTrackball.1.size = (widget3.rect.width, widget3.rect.height) ∧
      widget3.getTrackball.2.trackball = some widget3.getTrackball.1) :=
  ⟨⟨rfl, (claim8_lazy_singleton_controller widgetWithTB).1 tb0 rfl⟩,
   ⟨rfl, (claim8_lazy_singleton_controller widget3).2 rfl⟩⟩

end TrimeshGlooey
